import Mathlib

/-!
Verification of the UPS monitoring backend (`upsbackend`).

This file gives a shallow embedding, over `ℚ`, of the parts of the code that
determine a UPS unit's status, derive a history-based risk score, build and
query the random-forest classifier, generate failure explanations, and run the
two prediction cycles.  Theorems at the end settle the spec's claims about
these functions.  Python floats are modelled as rationals; all the thresholds
involved are decimally exact, so no rounding subtleties are lost.
-/

namespace UPSBackend

/-! ## Status state machine (`determine_current_status`, src/main.py) -/

/-- A value stored in a metric field of a UPS document, as seen by Python's
`float()` conversion: either a numeric value (int, float, or numeric string),
which converts to the rational `q`, or a non-numeric value (for example the
string `"low"` or `None`), on which `float()` raises `ValueError`/`TypeError`. -/
inductive MetricValue where
  | num (q : ℚ)
  | nonNumeric
deriving DecidableEq

/-- The fields of a UPS document read by `determine_current_status`
(src/main.py).  `none` models a missing key, on which `dict.get` returns the
supplied default. -/
structure UPSData where
  batteryLevel : Option MetricValue
  temperature : Option MetricValue
  load : Option MetricValue
  efficiency : Option MetricValue
  failureRisk : Option MetricValue
deriving DecidableEq

/-- Python `float(d.get(key, default))`: a missing field yields the default,
a numeric field converts, a non-numeric field raises. -/
def pyFloat (field : Option MetricValue) (default : ℚ) : Except Unit ℚ :=
  match field with
  | none => .ok default
  | some (.num q) => .ok q
  | some .nonNumeric => .error ()

/-- Range validation in `determine_current_status`: a value outside
`[lo, hi]` is replaced by `fallback` (the `if not (lo <= v <= hi)` checks in
src/main.py). -/
def validateRange (lo hi v fallback : ℚ) : ℚ :=
  if lo ≤ v ∧ v ≤ hi then v else fallback

/-- The threshold chain of `determine_current_status` applied to the validated
metric values (src/main.py): failed, else warning, else risky, else healthy. -/
def statusFromValidated (battery_level temperature load efficiency failure_risk : ℚ) :
    String :=
  if battery_level < 15 ∨ temperature > 38 ∨ load > 90 ∨ efficiency < 80 ∨
      failure_risk > 0.8 then
    "failed"
  else if battery_level < 25 ∨ temperature > 32 ∨ load > 80 ∨ efficiency < 85 ∨
      failure_risk > 0.6 then
    "warning"
  else if battery_level < 35 ∨ temperature > 28 ∨ load > 70 ∨ efficiency < 90 ∨
      failure_risk > 0.4 then
    "risky"
  else
    "healthy"

/-- The body of the `try` block of `determine_current_status`: convert each
field with `float` (any conversion may raise), validate ranges, then run the
threshold chain. -/
def determineCurrentStatusTry (d : UPSData) : Except Unit String := do
  let battery_level ← pyFloat d.batteryLevel 100
  let temperature ← pyFloat d.temperature 25
  let load ← pyFloat d.load 50
  let efficiency ← pyFloat d.efficiency 95
  let failure_risk ← pyFloat d.failureRisk 0
  pure (statusFromValidated
    (validateRange 0 100 battery_level 100)
    (validateRange 0 100 temperature 25)
    (validateRange 0 100 load 50)
    (validateRange 0 100 efficiency 95)
    (validateRange 0 1 failure_risk 0))

/-- Determines the current UPS status (`determine_current_status`,
src/main.py): any exception raised in the body is caught and `"healthy"` is
returned. -/
def determine_current_status (d : UPSData) : String :=
  match determineCurrentStatusTry d with
  | .ok s => s
  | .error _ => "healthy"

/-- A UPS data record whose five status metrics are all present and numeric. -/
def numData (b t l e r : ℚ) : UPSData :=
  ⟨some (.num b), some (.num t), some (.num l), some (.num e), some (.num r)⟩

/-! ## Refresh tick (`update_ups_data`, src/scripts/ups_monitor_service.py) -/

/-- The fields of a persisted unit document read by the refresh tick.  `none`
models a missing key (`dict.get` then returns the coded default).  The `load`
and `failureRisk` fields are carried along because `determine_current_status`
reads them, although the refresh tick itself never writes them. -/
structure UnitDoc where
  status : Option String
  batteryLevel : Option ℚ
  temperature : Option ℚ
  efficiency : Option ℚ
  powerInput : Option ℚ
  powerOutput : Option ℚ
  load : Option MetricValue
  failureRisk : Option MetricValue
deriving DecidableEq

/-- One refresh tick's sampled randomness, one draw per `random.*` call site in
`update_ups_data`: `rechargeRoll` is `random.random() < 0.8` (only consulted
when the battery is low), `rechargeAmount` is `random.randint(5, 15)`,
`dischargeAmount` is `random.uniform(0.1, 0.5)`, `tempChange` is
`random.uniform(-2, 2)`, `efficiencyChange` is `random.uniform(-0.5, 0.5)`,
`powerInputChange` is `random.uniform(-50, 50)` and `powerOutputChange` is
`random.uniform(-30, 30)`. -/
structure RefreshDraws where
  rechargeRoll : Bool
  rechargeAmount : ℚ
  dischargeAmount : ℚ
  tempChange : ℚ
  efficiencyChange : ℚ
  powerInputChange : ℚ
  powerOutputChange : ℚ
deriving DecidableEq

/-- Battery update of the refresh tick: below 20% the unit recharges with
probability 0.8, otherwise it keeps discharging; discharge floors at 0 and
recharge caps at 100. -/
def newBattery (current : ℚ) (d : RefreshDraws) : ℚ :=
  if current < 20 then
    if d.rechargeRoll then min 100 (current + d.rechargeAmount)
    else max 0 (current - d.dischargeAmount)
  else max 0 (current - d.dischargeAmount)

/-- Temperature update of the refresh tick, clamped to `[15, 45]`. -/
def newTemperature (current : ℚ) (d : RefreshDraws) : ℚ :=
  max 15 (min 45 (current + d.tempChange))

/-- Efficiency update of the refresh tick, clamped to `[85, 99]`. -/
def newEfficiency (current : ℚ) (d : RefreshDraws) : ℚ :=
  max 85 (min 99 (current + d.efficiencyChange))

/-- Power-input update of the refresh tick, floored at 100. -/
def newPowerInput (current : ℚ) (d : RefreshDraws) : ℚ :=
  max 100 (current + d.powerInputChange)

/-- Power-output update of the refresh tick, floored at 50. -/
def newPowerOutput (current : ℚ) (d : RefreshDraws) : ℚ :=
  max 50 (current + d.powerOutputChange)

/-- Status assignment of the refresh tick (`update_ups_data`): keeps the
current status by default, changes it only when conditions are "really bad",
and resets a warning/failed unit to healthy on recovery conditions. -/
def monitorNewStatus (current_status : String)
    (new_battery new_temp new_efficiency : ℚ) : String :=
  if new_battery < 10 then "failed"
  else if new_battery < 20 ∧ new_temp > 40 then "warning"
  else if new_temp > 45 then "warning"
  else if new_efficiency < 85 then "warning"
  else if new_battery > 30 ∧ new_temp < 40 ∧ new_efficiency > 90 then
    if current_status = "warning" ∨ current_status = "failed" then "healthy"
    else current_status
  else current_status

/-- Rounds to 2 decimal places, as `round(x, 2)` before persisting.  Python
rounds half to even at exact two-decimal ties; no theorem below depends on tie
behaviour. -/
def round2 (q : ℚ) : ℚ := ((round (q * 100) : ℤ) : ℚ) / 100

/-- The fields written back to the unit document by one refresh tick. -/
structure RefreshUpdate where
  batteryLevel : ℚ
  temperature : ℚ
  efficiency : ℚ
  powerInput : ℚ
  powerOutput : ℚ
  status : String
deriving DecidableEq

/-- One unit's refresh tick (`update_ups_data`, src/scripts/ups_monitor_service.py):
compute the new metric values from the sampled draws, determine the new status
with `monitorNewStatus` on the unrounded values, and persist the rounded
values together with the new status. -/
def update_ups_data_step (ups : UnitDoc) (d : RefreshDraws) : RefreshUpdate :=
  let current_status := ups.status.getD "healthy"
  let new_battery := newBattery (ups.batteryLevel.getD 100) d
  let new_temp := newTemperature (ups.temperature.getD 25) d
  let new_efficiency := newEfficiency (ups.efficiency.getD 95) d
  let new_power_input := newPowerInput (ups.powerInput.getD 1000) d
  let new_power_output := newPowerOutput (ups.powerOutput.getD 800) d
  ⟨round2 new_battery, round2 new_temp, round2 new_efficiency,
   round2 new_power_input, round2 new_power_output,
   monitorNewStatus current_status new_battery new_temp new_efficiency⟩

/-- The five status metrics of a unit document immediately after a refresh
write: battery, temperature and efficiency come from the update, while the
document's `load` and `failureRisk` fields (if any) are untouched. -/
def writtenMetrics (u : RefreshUpdate) (load failureRisk : Option MetricValue) : UPSData :=
  ⟨some (.num u.batteryLevel), some (.num u.temperature), load,
   some (.num u.efficiency), failureRisk⟩

/-! ## History risk score (`_compute_history_risk`,
src/ml/predictive_monitor.py) -/

/-- One row of the `ups_history` collection, restricted to the numeric fields
the risk computation reads; `none` is a missing key.  (A non-numeric stored
value would make the `float()` conversions raise, which the function's
`except` turns into a score of 0; such rows are outside this embedding's
domain.) -/
structure HistoryRecord where
  temperature : Option ℚ
  batteryLevel : Option ℚ
  efficiency : Option ℚ
  load : Option ℚ
deriving DecidableEq

/-- The `max(0.0, min(1.0, x))` clamp pattern. -/
def pyClamp01 (x : ℚ) : ℚ := max 0 (min 1 x)

/-- Python `max` of a list (raises on the empty list; every call below is
guarded by nonemptiness, where this returns the true maximum). -/
def pyMax : List ℚ → ℚ
  | [] => 0
  | x :: xs => xs.foldl max x

/-- Temperatures read from the history window, defaulting missing entries
to 25. -/
def historyTemps (history : List HistoryRecord) : List ℚ :=
  history.map (fun h => h.temperature.getD 25)

/-- Battery levels read from the history window, defaulting missing entries
to 100. -/
def historyBats (history : List HistoryRecord) : List ℚ :=
  history.map (fun h => h.batteryLevel.getD 100)

/-- Efficiencies read from the history window, defaulting missing entries
to 95. -/
def historyEffs (history : List HistoryRecord) : List ℚ :=
  history.map (fun h => h.efficiency.getD 95)

/-- Loads read from the history window; rows without a `load` key are
skipped. -/
def historyLoads (history : List HistoryRecord) : List ℚ :=
  history.filterMap (fun h => h.load)

/-- Temperature component of the history risk: peak temperature mapped
linearly from 28°C → 0 to 45°C → 1, clamped. -/
def temp_component (history : List HistoryRecord) : ℚ :=
  if historyTemps history = [] then 0
  else pyClamp01 ((pyMax (historyTemps history) - 28) / (45 - 28))

/-- Battery component of the history risk: 0.6 times the inverted current
level plus 0.4 times the clamped magnitude of the drop across the window. -/
def battery_component (history : List HistoryRecord) : ℚ :=
  if historyBats history = [] then 0
  else
    let bats := historyBats history
    let b_now := bats.headD 0
    let level_component := 1 - pyClamp01 (b_now / 100)
    let drop := if bats.length > 1 then b_now - (bats.getLast?.getD 0) else 0
    let drop_component := pyClamp01 (|drop| / 20)
    0.6 * level_component + 0.4 * drop_component

/-- Efficiency component of the history risk: current efficiency mapped
linearly from 95% → 0 to 80% → 1, clamped. -/
def efficiency_component (history : List HistoryRecord) : ℚ :=
  if historyEffs history = [] then 0
  else pyClamp01 ((95 - (historyEffs history).headD 0) / (95 - 80))

/-- Load component of the history risk: peak load mapped linearly from
70% → 0 to 95% → 1, clamped; 0 when no history row carries a load. -/
def load_component (history : List HistoryRecord) : ℚ :=
  if historyLoads history = [] then 0
  else pyClamp01 ((pyMax (historyLoads history) - 70) / (95 - 70))

/-- The history risk score (`_compute_history_risk`): 0 on an empty window,
otherwise the clamped weighted sum of the four components. -/
def compute_history_risk (history : List HistoryRecord) : ℚ :=
  if history = [] then 0
  else
    pyClamp01 (0.3 * temp_component history + 0.3 * battery_component history +
      0.2 * efficiency_component history + 0.2 * load_component history)

/-! ## Random forest (`RandomForestClassifier`, src/ml/ml_utils.py) -/

/-- A training row: the feature vector of one sample paired with its integer
class label (`X[i]`, `y[i]`). -/
abbrev Row := List ℚ × ℕ

/-- Inserts into a sorted list of rationals, keeping order. -/
def insertLe (x : ℚ) : List ℚ → List ℚ
  | [] => [x]
  | y :: ys => if x ≤ y then x :: y :: ys else y :: insertLe x ys

/-- Sorts a list of rationals ascending (insertion sort). -/
def sortRat (l : List ℚ) : List ℚ := l.foldr insertLe []

/-- NumPy `median`: middle element of the sorted list for odd length, mean of
the two middle elements for even length.  Returns 0 on the empty list, where
NumPy returns NaN; every call site below works on nonempty values. -/
def npMedian (xs : List ℚ) : ℚ :=
  let s := sortRat xs
  let n := xs.length
  if n = 0 then 0
  else if n % 2 = 1 then s.getD (n / 2) 0
  else (s.getD (n / 2 - 1) 0 + s.getD (n / 2) 0) / 2

/-- NumPy `max` over natural numbers, with 0 for the empty list. -/
def natMax (l : List ℕ) : ℕ := l.foldl max 0

/-- NumPy `np.bincount(labels).argmax()`: the smallest label attaining the
maximum occurrence count (`argmax` returns the first index of the maximum).
Returns 0 on the empty list, where NumPy raises; every call site below is on
nonempty labels. -/
def bincountArgmax (labels : List ℕ) : ℕ :=
  (List.range (natMax labels + 1)).foldl
    (fun best i => if labels.count best < labels.count i then i else best) 0

/-- A fitted decision tree node (`_create_tree` returns a dict of this
shape). -/
inductive Tree where
  | leaf (prediction : ℕ)
  | split (feature_idx : ℕ) (split_value : ℚ) (left right : Tree)
deriving DecidableEq

/-- The recursive tree builder `_create_tree` (src/ml/ml_utils.py), with an
explicit recursion-depth fuel: a pure node becomes a leaf with its first
label; with no feature columns the node becomes a majority leaf; otherwise
the rows are split on feature index 0 at the median of that feature, a
one-sided split becomes a majority leaf, and both sides recurse.  Each
recursive call strictly decreases the row count (both sides of a kept split
are nonempty), so fuel `rows.length` (as used by `create_tree`) makes the
fuel case unreachable and the function agree with the source recursion. -/
def createTreeFuel : ℕ → List Row → Tree
  | 0, _ => .leaf 0
  | fuel + 1, rows =>
    let labels := rows.map Prod.snd
    if labels.dedup.length = 1 then .leaf (labels.headD 0)
    else if (rows.headD ([], 0)).1.length = 0 then .leaf (bincountArgmax labels)
    else
      let feature_values := rows.map (fun r => r.1.headD 0)
      let split_value := npMedian feature_values
      let left := rows.filter (fun r => r.1.headD 0 ≤ split_value)
      let right := rows.filter (fun r => ¬ (r.1.headD 0 ≤ split_value))
      if left = [] ∨ right = [] then .leaf (bincountArgmax labels)
      else .split 0 split_value (createTreeFuel fuel left) (createTreeFuel fuel right)

/-- Builds one decision tree from the full training set (`_create_tree`). -/
def create_tree (rows : List Row) : Tree := createTreeFuel rows.length rows

/-- Inserts into a sorted list of naturals, keeping order. -/
def insertLeNat (x : ℕ) : List ℕ → List ℕ
  | [] => [x]
  | y :: ys => if x ≤ y then x :: y :: ys else y :: insertLeNat x ys

/-- Sorts a list of naturals ascending (insertion sort). -/
def sortNat (l : List ℕ) : List ℕ := l.foldr insertLeNat []

/-- NumPy `unique`: the sorted list of distinct values. -/
def npUnique (l : List ℕ) : List ℕ := sortNat l.dedup

/-- A fitted `RandomForestClassifier`: its list of trees and its sorted class
list `classes_`. -/
structure RandomForest where
  trees : List Tree
  classes : List ℕ
deriving DecidableEq

/-- The classifier's `fit`: `classes_` is the sorted unique label list, and
every one of the `n_estimators` trees is `_create_tree(X, y)` on the full
training set — the builder is deterministic, so all ensemble members are
identical. -/
def RandomForest.fit (rows : List Row) (n_estimators : ℕ) : RandomForest :=
  ⟨(List.range n_estimators).map (fun _ => create_tree rows),
   npUnique (rows.map Prod.snd)⟩

/-- Tree traversal for one sample (`_predict_sample`): go left on
`sample[feature_idx] <= split_value`. -/
def predict_sample (sample : List ℚ) : Tree → ℕ
  | .leaf p => p
  | .split i v l r =>
    if sample.getD i 0 ≤ v then predict_sample sample l else predict_sample sample r

/-- The per-tree votes of the ensemble on one sample. -/
def treeVotes (m : RandomForest) (sample : List ℚ) : List ℕ :=
  m.trees.map (predict_sample sample)

/-- The classifier's `predict_proba` for one sample: for each class of
`classes_`, the fraction of trees voting it.  (Python writes each vote's
fraction into the slot located with `np.where(classes_ == pred)`, raising if
a vote falls outside `classes_`; that cannot happen for a model produced by
`fit`, and this embedding agrees with the source whenever all votes are in
`classes_`.) -/
def predict_proba (m : RandomForest) (sample : List ℚ) : List ℚ :=
  let votes := treeVotes m sample
  m.classes.map (fun c => (votes.count c : ℚ) / votes.length)

/-- The classifier's `predict` for one sample: majority vote across the
ensemble via `np.bincount(...).argmax()`. -/
def RandomForest.predict (m : RandomForest) (sample : List ℚ) : ℕ :=
  bincountArgmax (treeVotes m sample)

/-! ## Explanation generation (`GeminiAIService`, src/ml/gemini_service.py) -/

/-- A unit record as consumed by the ML pipeline (`predict_with_detailed_reasons`,
`_generate_fallback_reasons`, `make_predictions`, `generate_predictions`).
`none` models a missing key; field values are numeric (the pipeline's `get_num`
silently replaces a non-convertible value by the default, so the
numeric-or-missing domain covers the behaviour the claims quantify over). -/
structure UPSRecord where
  upsId : Option String
  name : Option String
  objectId : String
  status : Option String
  powerInput : Option ℚ
  powerOutput : Option ℚ
  batteryLevel : Option ℚ
  temperature : Option ℚ
  efficiency : Option ℚ
  load : Option ℚ
  voltageInput : Option ℚ
  voltageOutput : Option ℚ
  frequency : Option ℚ
  capacity : Option ℚ
  criticalLoad : Option ℚ
  uptime : Option ℚ
  failureRisk : Option ℚ
  manufacturer : Option String
  model : Option String
deriving DecidableEq

/-- One failure-explanation line.  Each non-`remote` constructor stands for
one of the fixed English templates emitted by `_generate_fallback_reasons`
(src/ml/gemini_service.py), carrying the metric value interpolated into the
text; `remote` is a line parsed out of a Gemini response. -/
inductive Reason where
  | criticalBattery (level : ℚ)
  | highBattery (level : ℚ)
  | moderateBattery (level : ℚ)
  | elevatedBatteryWear (level : ℚ)
  | criticalTemperature (t : ℚ)
  | highTemperature (t : ℚ)
  | elevatedTemperature (t : ℚ)
  | criticalLoad (l : ℚ)
  | highLoad (l : ℚ)
  | elevatedLoad (l : ℚ)
  | criticalPowerImbalance (balance : ℚ)
  | moderatePowerImbalance (balance : ℚ)
  | criticalEfficiency (e : ℚ)
  | lowEfficiency (e : ℚ)
  | generalCritical (probability : ℚ)
  | generalElevated (probability : ℚ)
  | generalModerate (probability : ℚ)
  | remote (text : String)
deriving DecidableEq

/-- The prediction-data dict handed to explanation generation; only
`probability_failure` (defaulted to 0 when missing) influences the output. -/
structure PredictionData where
  probability_failure : Option ℚ
  confidence : Option ℚ
deriving DecidableEq

/-- Battery band of the fallback (`_generate_fallback_reasons`): reasons fire
below 20/30/40/60%, nothing for a missing field. -/
def battery_reasons (ups : UPSRecord) : List Reason :=
  match ups.batteryLevel with
  | none => []
  | some b =>
    if b < 20 then [.criticalBattery b]
    else if b < 30 then [.highBattery b]
    else if b < 40 then [.moderateBattery b]
    else if b < 60 then [.elevatedBatteryWear b]
    else []

/-- Temperature band of the fallback: reasons fire above 50/45/40°C. -/
def temperature_reasons (ups : UPSRecord) : List Reason :=
  match ups.temperature with
  | none => []
  | some t =>
    if t > 50 then [.criticalTemperature t]
    else if t > 45 then [.highTemperature t]
    else if t > 40 then [.elevatedTemperature t]
    else []

/-- Load band of the fallback: reasons fire above 95/90/80%. -/
def load_reasons (ups : UPSRecord) : List Reason :=
  match ups.load with
  | none => []
  | some l =>
    if l > 95 then [.criticalLoad l]
    else if l > 90 then [.highLoad l]
    else if l > 80 then [.elevatedLoad l]
    else []

/-- Power-balance band of the fallback: fires when both power fields are
present and their difference exceeds 50 W or 20 W in magnitude. -/
def power_reasons (ups : UPSRecord) : List Reason :=
  match ups.powerInput, ups.powerOutput with
  | some power_input, some power_output =>
    let power_balance := power_input - power_output
    if |power_balance| > 50 then [.criticalPowerImbalance power_balance]
    else if |power_balance| > 20 then [.moderatePowerImbalance power_balance]
    else []
  | _, _ => []

/-- Efficiency band of the fallback: reasons fire below 80/85%. -/
def efficiency_reasons (ups : UPSRecord) : List Reason :=
  match ups.efficiency with
  | none => []
  | some e =>
    if e < 80 then [.criticalEfficiency e]
    else if e < 85 then [.lowEfficiency e]
    else []

/-- The metric-banded part of the fallback, in source order. -/
def metric_reasons (ups : UPSRecord) : List Reason :=
  battery_reasons ups ++ temperature_reasons ups ++ load_reasons ups ++
    power_reasons ups ++ efficiency_reasons ups

/-- The probability-banded generic reason the fallback appends when no metric
reason fired: one reason above 0.8/0.6/0.4 failure probability — and nothing
at all at 0.4 or below. -/
def general_reasons (probability_failure : ℚ) : List Reason :=
  if probability_failure > 0.8 then [.generalCritical probability_failure]
  else if probability_failure > 0.6 then [.generalElevated probability_failure]
  else if probability_failure > 0.4 then [.generalModerate probability_failure]
  else []

/-- The deterministic local fallback (`_generate_fallback_reasons`):
metric-banded reasons for battery, temperature, load, power balance and
efficiency, in source order; when none of those fire, the probability-banded
generic reason; finally capped at 6 reasons. -/
def generate_fallback_reasons (ups : UPSRecord) (pred : PredictionData) : List Reason :=
  let probability_failure := pred.probability_failure.getD 0
  let reasons :=
    if metric_reasons ups = [] then general_reasons probability_failure
    else metric_reasons ups
  reasons.take 6

/-- Outcome of one `generate_content` attempt against the remote service:
`failed` covers both a raised exception and a falsy/empty response (either
way the loop moves on), `parsed` is a response whose text
`_parse_gemini_response` turned into at most five reason lines — possibly
none, which the source returns as-is. -/
inductive AttemptOutcome where
  | failed
  | parsed (reasons : List Reason)
deriving DecidableEq

/-- The remote explanation service as the code can observe it:
`modelConfigured` is whether the API key was present and the client object was
built, `attempts` is the outcome of each successive `generate_content` call. -/
structure RemoteEnv where
  modelConfigured : Bool
  attempts : List AttemptOutcome
deriving DecidableEq

/-- The retry budget (`self.max_retries = 3`). -/
def maxRetries : ℕ := 3

/-- First attempt that produced a parsed response, if any. -/
def firstParsed : List AttemptOutcome → Option (List Reason)
  | [] => none
  | .failed :: rest => firstParsed rest
  | .parsed rs :: _ => some rs

/-- Explanation generation (`generate_failure_reasons`): with no configured
client, fall back locally at once; otherwise return the first parsed remote
response within the retry budget, and fall back locally when every attempt
raises or comes back empty. -/
def generate_failure_reasons (env : RemoteEnv) (ups : UPSRecord)
    (pred : PredictionData) : List Reason :=
  if env.modelConfigured = false then generate_fallback_reasons ups pred
  else
    match firstParsed (env.attempts.take maxRetries) with
    | some rs => rs
    | none => generate_fallback_reasons ups pred

/-! ## Scoring one unit (`predict_with_detailed_reasons`,
src/ml/enhanced_model_trainer.py) -/

/-- The fixed-order feature extraction of `predict_with_detailed_reasons`:
thirteen features with the coded `get_num` defaults. -/
def extractFeatures (u : UPSRecord) : List ℚ :=
  [u.powerInput.getD 0, u.powerOutput.getD 0, u.batteryLevel.getD 100,
   u.temperature.getD 25, u.efficiency.getD 95, u.load.getD 50,
   u.voltageInput.getD 230, u.voltageOutput.getD 230, u.frequency.getD 50,
   u.capacity.getD 2000, u.criticalLoad.getD 500, u.uptime.getD 100,
   u.failureRisk.getD 0]

/-- The dict returned by `predict_with_detailed_reasons`. -/
structure DetailedPrediction where
  prediction : ℕ
  probability_failure : ℚ
  probability_healthy : ℚ
  confidence : ℚ
  failure_reasons : List Reason
deriving DecidableEq

/-- Scores one unit (`predict_with_detailed_reasons`): `None` without a
loaded model; otherwise extract features, predict, take the class-1 slot of
`predict_proba` as the failure probability and the class-0 slot as the
healthy probability (falling back to 0.5 and its complement when the
probability vector has a single entry), take the maximum class probability as
the confidence, and attach the generated failure reasons. -/
def predict_with_detailed_reasons (model : Option RandomForest) (env : RemoteEnv)
    (ups : UPSRecord) : Option DetailedPrediction :=
  match model with
  | none => none
  | some m =>
    let features := extractFeatures ups
    let prediction := m.predict features
    let probability := predict_proba m features
    let confidence := pyMax probability
    let failure_probability :=
      if probability.length > 1 then probability.getD 1 0 else 0.5
    let probability_healthy :=
      if probability.length > 1 then probability.getD 0 0 else 1 - failure_probability
    let failure_reasons :=
      generate_failure_reasons env ups ⟨some failure_probability, some confidence⟩
    some ⟨prediction, failure_probability, probability_healthy, confidence,
      failure_reasons⟩

/-! ## Continuous prediction cycle (`generate_predictions`,
src/continuous_predictions.py) -/

/-- Risk bucket from failure probability, as coded inline at both persistence
sites: high above 0.7, medium above 0.4, else low. -/
def risk_level_of (p : ℚ) : String :=
  if p > 0.7 then "high" else if p > 0.4 then "medium" else "low"

/-- Timeframe label from failure probability, as coded inline at both
persistence sites. -/
def timeframe_of (p : ℚ) : String :=
  if p > 0.7 then "6_hours" else if p > 0.4 then "12_hours" else "24_hours"

/-- The `technical_details` snapshot embedded in a persisted prediction, with
the defaults coded at both persistence sites. -/
structure TechnicalDetails where
  battery_health : ℚ
  temperature_status : ℚ
  efficiency_rating : ℚ
  load_percentage : ℚ
  power_balance : ℚ
  capacity : ℚ
  uptime : ℚ
  manufacturer : String
  model : String
deriving DecidableEq

/-- Builds the `technical_details` snapshot from a unit record. -/
def technical_details_of (ups : UPSRecord) : TechnicalDetails :=
  ⟨ups.batteryLevel.getD 100, ups.temperature.getD 25, ups.efficiency.getD 100,
   ups.load.getD 0, ups.powerInput.getD 0 - ups.powerOutput.getD 0,
   ups.capacity.getD 2000, ups.uptime.getD 100,
   ups.manufacturer.getD "Unknown", ups.model.getD "Unknown"⟩

/-- A prediction document as persisted to the `ups_predictions` collection. -/
structure EnhancedPrediction where
  ups_id : String
  ups_name : String
  ups_object_id : String
  prediction : ℕ
  probability_failure : ℚ
  probability_healthy : ℚ
  confidence : ℚ
  current_status : String
  risk_level : String
  timeframe : String
  failure_reasons : List Reason
  technical_details : TechnicalDetails
deriving DecidableEq

/-- Builds the persisted prediction document for one unit from its scoring
result, as in the loop body of `generate_predictions`. -/
def mkEnhancedPrediction (ups : UPSRecord) (r : DetailedPrediction) : EnhancedPrediction :=
  ⟨ups.upsId.getD "Unknown", ups.name.getD "Unknown", ups.objectId, r.prediction,
   r.probability_failure, r.probability_healthy, r.confidence,
   ups.status.getD "unknown", risk_level_of r.probability_failure,
   timeframe_of r.probability_failure, r.failure_reasons, technical_details_of ups⟩

/-- The prediction list built by one cycle of
`ContinuousPredictionService.generate_predictions`: each unit is scored
(a per-unit exception or a `None` result skips the unit), and only results
with failure probability at least 0.4 become documents. -/
def build_enhanced_predictions (m : RandomForest) (env : RemoteEnv)
    (ups_data : List UPSRecord) : List EnhancedPrediction :=
  ups_data.filterMap (fun ups =>
    match predict_with_detailed_reasons (some m) env ups with
    | some r =>
      if r.probability_failure ≥ 0.4 then some (mkEnhancedPrediction ups r) else none
    | none => none)

/-- One cycle of `generate_predictions` as a transformation of the persisted
`ups_predictions` set: the cycle returns early — leaving the stored set
untouched — when the model fails to load, when unit data cannot be read or is
empty, or when no prediction is generated; only a cycle with at least one new
prediction clears the collection (`delete_many`) and inserts the new set. -/
def generate_predictions (loadedModel : Option RandomForest)
    (ups_data_result : Option (List UPSRecord)) (env : RemoteEnv)
    (stored : List EnhancedPrediction) : List EnhancedPrediction :=
  match loadedModel with
  | none => stored
  | some m =>
    match ups_data_result with
    | none => stored
    | some ups_data =>
      if ups_data = [] then stored
      else
        let predictions := build_enhanced_predictions m env ups_data
        if predictions = [] then stored else predictions

/-! ## Monitor prediction cycle (`make_predictions` and `save_predictions`,
src/ml/predictive_monitor.py) -/

/-- The history-smoothing block of `make_predictions` as it actually behaves:
`numpy` is never imported in predictive_monitor.py, so with nonempty history
the first `np.mean` call raises `NameError` before any field is assigned, and
the enclosing `except Exception: pass` swallows it — the unit record is
returned unchanged whatever the history. -/
def smoothWithHistory (ups : UPSRecord) (_history : List HistoryRecord) : UPSRecord :=
  ups

/-- The unit identifier used for history lookup in `make_predictions`:
`upsId`, else `name`, else the stringified object id. -/
def historyKey (ups : UPSRecord) : String :=
  match ups.upsId with
  | some s => s
  | none =>
    match ups.name with
    | some s => s
    | none => ups.objectId

/-- A prediction document as persisted by the monitor path
(`make_predictions` then `save_predictions`). -/
structure MonitorPrediction where
  ups_id : String
  ups_name : String
  ups_object_id : String
  prediction : ℕ
  probability_failure : ℚ
  probability_healthy : ℚ
  confidence : ℚ
  current_status : String
  risk_level : String
  timeframe : String
  failure_reasons : List Reason
  technical_details : TechnicalDetails
deriving DecidableEq

/-- The prediction list built by `UPSPredictiveMonitor.make_predictions`:
empty when the model fails to load; otherwise, for every unit, the recent
history is fetched, the history risk is injected as `failureRisk`, the dead
smoothing block leaves the metrics as they are (see `smoothWithHistory`), the
unit is scored, and — with no probability threshold of any kind — every
successfully scored unit yields a document (a per-unit exception or `None`
result skips the unit). -/
def make_predictions (model : Option RandomForest) (env : RemoteEnv)
    (histFetch : String → List HistoryRecord) (ups_data : List UPSRecord) :
    List MonitorPrediction :=
  match model with
  | none => []
  | some m =>
    ups_data.filterMap (fun ups =>
      let history := histFetch (historyKey ups)
      let history_risk := compute_history_risk history
      let ups1 := smoothWithHistory { ups with failureRisk := some history_risk } history
      match predict_with_detailed_reasons (some m) env ups1 with
      | some r =>
        some ⟨ups1.upsId.getD "Unknown", ups1.name.getD "Unknown", ups1.objectId,
          r.prediction, r.probability_failure, r.probability_healthy, r.confidence,
          ups1.status.getD "unknown", risk_level_of r.probability_failure,
          timeframe_of r.probability_failure, r.failure_reasons,
          technical_details_of ups1⟩
      | none => none)

/-- `save_predictions`: inserts every new prediction into the
`ups_predictions` collection without clearing it. -/
def save_predictions (stored : List MonitorPrediction)
    (predictions : List MonitorPrediction) : List MonitorPrediction :=
  stored ++ predictions

/-! ## Auxiliary notions used by the claims -/

/-- Python `min` of a list (raises on the empty list; only used below on
nonempty lists, where this returns the true minimum). -/
def pyMin : List ℚ → ℚ
  | [] => 0
  | x :: xs => xs.foldl min x

/-- Spread (maximum minus minimum) of feature `i` across a set of rows: the
quantity a largest-spread splitting rule would maximise over features. -/
def featureSpread (rows : List Row) (i : ℕ) : ℚ :=
  pyMax (rows.map (fun r => r.1.getD i 0)) - pyMin (rows.map (fun r => r.1.getD i 0))

/-- Checks that every split node of a tree splits on feature index 0. -/
def allSplitsFeatureZero : Tree → Bool
  | .leaf _ => true
  | .split i _ l r => i = 0 && allSplitsFeatureZero l && allSplitsFeatureZero r

/-- Two training rows on which feature 1 has a strictly larger spread (100)
than feature 0 (spread 1). -/
def spreadRows : List Row := [([0, 0], 0), ([1, 100], 1)]

/-- A unit record with no metric fields at all. -/
def blankUPSRecord : UPSRecord :=
  ⟨none, none, "blank", none, none, none, none, none, none, none, none, none, none,
   none, none, none, none, none, none⟩

/-- Three training rows over the thirteen model features, with the three
classes healthy (0), degraded (1) and failed (2) distinguished by the first
feature. -/
def threeClassRows : List Row :=
  [([0, 0, 0, 0, 0, 0, 0, 0, 0, 0, 0, 0, 0], 0),
   ([1, 0, 0, 0, 0, 0, 0, 0, 0, 0, 0, 0, 0], 1),
   ([2, 0, 0, 0, 0, 0, 0, 0, 0, 0, 0, 0, 0], 2)]

/-- The classifier fitted on `threeClassRows` with the trainer's
`n_estimators = 100`. -/
def threeClassModel : RandomForest := RandomForest.fit threeClassRows 100

/-- A unit record whose feature vector lands in the failed-class leaf of
`threeClassModel` (its first feature, `powerInput`, is 2). -/
def failedClassUnit : UPSRecord :=
  ⟨none, none, "u-failed", none, some 2, none, none, none, none, none, none, none,
   none, none, none, none, none, none, none⟩

/-- Two training rows over the thirteen model features with classes healthy
(0) and degraded (1) distinguished by the first feature. -/
def twoClassRows : List Row :=
  [([0, 0, 0, 0, 0, 0, 0, 0, 0, 0, 0, 0, 0], 0),
   ([1, 0, 0, 0, 0, 0, 0, 0, 0, 0, 0, 0, 0], 1)]

/-- The classifier fitted on `twoClassRows` with `n_estimators = 100`. -/
def twoClassModel : RandomForest := RandomForest.fit twoClassRows 100

/-- A unit record the two-class model scores as certainly healthy (failure
probability 0). -/
def healthyUnit : UPSRecord :=
  ⟨none, none, "u-healthy", none, some 0, none, none, none, none, none, none, none,
   none, none, none, none, none, none, none⟩

/-- A one-document persisted prediction set, used to observe that failed
cycles leave the store untouched. -/
def storedSample : List EnhancedPrediction :=
  [⟨"u-old", "UPS-old", "id-old", 1, 0.5, 0.5, 0.5, "warning", "medium", "12_hours",
    [], ⟨100, 25, 100, 0, 0, 2000, 100, "Unknown", "Unknown"⟩⟩]

/-- A unit record the two-class model scores as certainly degraded (failure
probability 1). -/
def degradedUnit : UPSRecord :=
  ⟨none, none, "u-degraded", none, some 1, none, none, none, none, none, none, none,
   none, none, none, none, none, none, none⟩

/-! ## Claims -/

/-- On in-range, all-numeric inputs, `determine_current_status` reduces to the
bare threshold chain: the range validation leaves such values unchanged. -/
theorem determine_numData_inRange (b t l e r : ℚ)
    (hb0 : 0 ≤ b) (hb1 : b ≤ 100) (ht0 : 0 ≤ t) (ht1 : t ≤ 100)
    (hl0 : 0 ≤ l) (hl1 : l ≤ 100) (he0 : 0 ≤ e) (he1 : e ≤ 100)
    (hr0 : 0 ≤ r) (hr1 : r ≤ 1) :
    determine_current_status (numData b t l e r) = statusFromValidated b t l e r := by
  simp [determine_current_status, determineCurrentStatusTry, numData, pyFloat,
    Bind.bind, Except.bind, Pure.pure, Except.pure, validateRange,
    hb0, hb1, ht0, ht1, hl0, hl1, he0, he1, hr0, hr1]

/-- C1: for every metrics record whose values are within valid ranges,
`determine_current_status` returns `"failed"` exactly when battery < 15 or
temperature > 38 or load > 90 or efficiency < 80 or failure risk > 0.8;
otherwise `"warning"` on the 25/32/80/85/0.6 thresholds; otherwise `"risky"`
on the 35/28/70/90/0.4 thresholds; otherwise `"healthy"` — worst-first, so
battery = 10 gives `"failed"` whatever the other metrics, and battery 50,
temperature 20, load 50, efficiency 95 gives `"healthy"`. -/
theorem determine_current_status_thresholds (b t l e r : ℚ)
    (hb0 : 0 ≤ b) (hb1 : b ≤ 100) (ht0 : 0 ≤ t) (ht1 : t ≤ 100)
    (hl0 : 0 ≤ l) (hl1 : l ≤ 100) (he0 : 0 ≤ e) (he1 : e ≤ 100)
    (hr0 : 0 ≤ r) (hr1 : r ≤ 1) :
    (determine_current_status (numData b t l e r) = "failed" ↔
      (b < 15 ∨ t > 38 ∨ l > 90 ∨ e < 80 ∨ r > 0.8)) ∧
    (determine_current_status (numData b t l e r) = "warning" ↔
      (¬(b < 15 ∨ t > 38 ∨ l > 90 ∨ e < 80 ∨ r > 0.8) ∧
       (b < 25 ∨ t > 32 ∨ l > 80 ∨ e < 85 ∨ r > 0.6))) ∧
    (determine_current_status (numData b t l e r) = "risky" ↔
      (¬(b < 15 ∨ t > 38 ∨ l > 90 ∨ e < 80 ∨ r > 0.8) ∧
       ¬(b < 25 ∨ t > 32 ∨ l > 80 ∨ e < 85 ∨ r > 0.6) ∧
       (b < 35 ∨ t > 28 ∨ l > 70 ∨ e < 90 ∨ r > 0.4))) ∧
    (determine_current_status (numData b t l e r) = "healthy" ↔
      (¬(b < 15 ∨ t > 38 ∨ l > 90 ∨ e < 80 ∨ r > 0.8) ∧
       ¬(b < 25 ∨ t > 32 ∨ l > 80 ∨ e < 85 ∨ r > 0.6) ∧
       ¬(b < 35 ∨ t > 28 ∨ l > 70 ∨ e < 90 ∨ r > 0.4))) ∧
    (b = 10 → determine_current_status (numData b t l e r) = "failed") ∧
    determine_current_status
      ⟨some (.num 50), some (.num 20), some (.num 50), some (.num 95), none⟩ =
      "healthy" := by
  have key := determine_numData_inRange b t l e r hb0 hb1 ht0 ht1 hl0 hl1 he0 he1 hr0 hr1
  refine ⟨?_, ?_, ?_, ?_, ?_, ?_⟩
  · rw [key]; unfold statusFromValidated; split_ifs with h1 h2 h3 <;> simp_all
  · rw [key]; unfold statusFromValidated; split_ifs with h1 h2 h3 <;> simp_all
  · rw [key]; unfold statusFromValidated; split_ifs with h1 h2 h3 <;> simp_all
  · rw [key]; unfold statusFromValidated; split_ifs with h1 h2 h3 <;> simp_all
  · intro hb
    have hfail : b < 15 := by rw [hb]; norm_num
    rw [key]; unfold statusFromValidated; rw [if_pos (Or.inl hfail)]
  · norm_num [determine_current_status, determineCurrentStatusTry, pyFloat,
      Bind.bind, Except.bind, Pure.pure, Except.pure, validateRange,
      statusFromValidated]

/-- Witness for C1 at the claim's own scenarios: battery 50, temperature 20,
load 50, efficiency 95, risk 0 is healthy; battery 10 is failed even with
every other metric perfect. -/
theorem determine_current_status_thresholds_witness :
    determine_current_status (numData 50 20 50 95 0) = "healthy" ∧
    determine_current_status (numData 10 20 50 95 0) = "failed" := by
  constructor
  · exact (determine_current_status_thresholds 50 20 50 95 0 (by norm_num) (by norm_num)
      (by norm_num) (by norm_num) (by norm_num) (by norm_num) (by norm_num) (by norm_num)
      (by norm_num) (by norm_num)).2.2.2.1.mpr (by norm_num)
  · exact (determine_current_status_thresholds 10 20 50 95 0 (by norm_num) (by norm_num)
      (by norm_num) (by norm_num) (by norm_num) (by norm_num) (by norm_num) (by norm_num)
      (by norm_num) (by norm_num)).2.2.2.2.1 rfl

/-- The threshold chain only ever produces one of the four statuses. -/
theorem statusFromValidated_mem (b t l e r : ℚ) :
    statusFromValidated b t l e r = "failed" ∨ statusFromValidated b t l e r = "warning" ∨
    statusFromValidated b t l e r = "risky" ∨ statusFromValidated b t l e r = "healthy" := by
  unfold statusFromValidated
  split_ifs <;> simp

/-- The `try` body either raises or returns the threshold chain applied to
the validated converted values. -/
theorem determineTry_shape (d : UPSData) :
    determineCurrentStatusTry d = .error () ∨
    ∃ b t l e r : ℚ, determineCurrentStatusTry d = .ok (statusFromValidated
      (validateRange 0 100 b 100) (validateRange 0 100 t 25)
      (validateRange 0 100 l 50) (validateRange 0 100 e 95)
      (validateRange 0 1 r 0)) := by
  unfold determineCurrentStatusTry
  rcases hb : pyFloat d.batteryLevel 100 with u | qb
  · left; simp [hb, Bind.bind, Except.bind]
  rcases ht : pyFloat d.temperature 25 with u | qt
  · left; simp [hb, ht, Bind.bind, Except.bind]
  rcases hl : pyFloat d.load 50 with u | ql
  · left; simp [hb, ht, hl, Bind.bind, Except.bind]
  rcases he : pyFloat d.efficiency 95 with u | qe
  · left; simp [hb, ht, hl, he, Bind.bind, Except.bind]
  rcases hr : pyFloat d.failureRisk 0 with u | qr
  · left; simp [hb, ht, hl, he, hr, Bind.bind, Except.bind]
  · right
    exact ⟨qb, qt, ql, qe, qr, by
      simp [hb, ht, hl, he, hr, Bind.bind, Except.bind, Pure.pure, Except.pure]⟩

/-- On an all-numeric record, `determine_current_status` is the threshold
chain applied to the validated values. -/
theorem determine_numData (b t l e r : ℚ) :
    determine_current_status (numData b t l e r) =
      statusFromValidated (validateRange 0 100 b 100) (validateRange 0 100 t 25)
        (validateRange 0 100 l 50) (validateRange 0 100 e 95)
        (validateRange 0 1 r 0) := by
  simp [determine_current_status, determineCurrentStatusTry, numData, pyFloat,
    Bind.bind, Except.bind, Pure.pure, Except.pure]

/-- Pre-substituting the coded default for an out-of-range value does not
change the validation's outcome. -/
theorem validateRange_default (lo hi v fb : ℚ) (h0 : lo ≤ fb) (h1 : fb ≤ hi) :
    validateRange lo hi (if lo ≤ v ∧ v ≤ hi then v else fb) fb =
      validateRange lo hi v fb := by
  by_cases hv : lo ≤ v ∧ v ≤ hi
  · simp [hv]
  · simp [validateRange, hv, h0, h1]

/-- C2: `determine_current_status` is total and deterministic on every input
record, and replaces each out-of-range metric by its safe default (battery
100, temperature 25, load 50, efficiency 95, failure risk 0) before the
thresholds are evaluated. -/
theorem determine_current_status_total_clamped :
    (∀ d : UPSData, determine_current_status d = "healthy" ∨
      determine_current_status d = "risky" ∨ determine_current_status d = "warning" ∨
      determine_current_status d = "failed") ∧
    (∀ b t l e r : ℚ, determine_current_status (numData b t l e r) =
      determine_current_status (numData
        (if 0 ≤ b ∧ b ≤ 100 then b else 100)
        (if 0 ≤ t ∧ t ≤ 100 then t else 25)
        (if 0 ≤ l ∧ l ≤ 100 then l else 50)
        (if 0 ≤ e ∧ e ≤ 100 then e else 95)
        (if 0 ≤ r ∧ r ≤ 1 then r else 0))) ∧
    (∀ d d' : UPSData, d = d' →
      determine_current_status d = determine_current_status d') := by
  refine ⟨?_, ?_, ?_⟩
  · intro d
    rcases determineTry_shape d with h | ⟨b, t, l, e, r, h⟩
    · simp [determine_current_status, h]
    · have hm := statusFromValidated_mem (validateRange 0 100 b 100)
        (validateRange 0 100 t 25) (validateRange 0 100 l 50)
        (validateRange 0 100 e 95) (validateRange 0 1 r 0)
      simp only [determine_current_status, h]
      tauto
  · intro b t l e r
    rw [determine_numData, determine_numData,
      validateRange_default 0 100 b 100 (by norm_num) (by norm_num),
      validateRange_default 0 100 t 25 (by norm_num) (by norm_num),
      validateRange_default 0 100 l 50 (by norm_num) (by norm_num),
      validateRange_default 0 100 e 95 (by norm_num) (by norm_num),
      validateRange_default 0 1 r 0 (by norm_num) (by norm_num)]
  · intro d d' h
    rw [h]

/-- Witness for C2: an out-of-range battery of 200 is treated as the default
100, so the record is healthy rather than failed; totality and determinism
instantiated on the same record. -/
theorem determine_current_status_total_clamped_witness :
    (determine_current_status (numData 200 20 50 95 0) = "healthy" ∨
      determine_current_status (numData 200 20 50 95 0) = "risky" ∨
      determine_current_status (numData 200 20 50 95 0) = "warning" ∨
      determine_current_status (numData 200 20 50 95 0) = "failed") ∧
    determine_current_status (numData 200 20 50 95 0) =
      determine_current_status (numData
        (if (0:ℚ) ≤ 200 ∧ (200:ℚ) ≤ 100 then 200 else 100)
        (if (0:ℚ) ≤ 20 ∧ (20:ℚ) ≤ 100 then 20 else 25)
        (if (0:ℚ) ≤ 50 ∧ (50:ℚ) ≤ 100 then 50 else 50)
        (if (0:ℚ) ≤ 95 ∧ (95:ℚ) ≤ 100 then 95 else 95)
        (if (0:ℚ) ≤ 0 ∧ (0:ℚ) ≤ 1 then 0 else 0)) ∧
    determine_current_status (numData 200 20 50 95 0) =
      determine_current_status (numData 200 20 50 95 0) :=
  ⟨determine_current_status_total_clamped.1 (numData 200 20 50 95 0),
   determine_current_status_total_clamped.2.1 200 20 50 95 0,
   determine_current_status_total_clamped.2.2 (numData 200 20 50 95 0)
     (numData 200 20 50 95 0) rfl⟩

/-- C10: whenever any of the five metric fields holds a value on which the
`float()` conversion raises (for example a non-numeric string), the exception
handler of `determine_current_status` returns `"healthy"` — the least severe
status — rather than propagating or degrading conservatively. -/
theorem determine_current_status_nonNumeric_healthy :
    ∀ d : UPSData,
      (d.batteryLevel = some .nonNumeric ∨ d.temperature = some .nonNumeric ∨
       d.load = some .nonNumeric ∨ d.efficiency = some .nonNumeric ∨
       d.failureRisk = some .nonNumeric) →
      determine_current_status d = "healthy" := by
  intro d h
  suffices herr : determineCurrentStatusTry d = .error () by
    simp [determine_current_status, herr]
  unfold determineCurrentStatusTry
  rcases h with h | h | h | h | h
  · simp [h, pyFloat, Bind.bind, Except.bind]
  · rcases hb : pyFloat d.batteryLevel 100 with u | qb <;>
      simp [hb, h, pyFloat, Bind.bind, Except.bind]
  · rcases hb : pyFloat d.batteryLevel 100 with u | qb <;>
      rcases ht : pyFloat d.temperature 25 with v | qt <;>
      simp [hb, ht, h, pyFloat, Bind.bind, Except.bind]
  · rcases hb : pyFloat d.batteryLevel 100 with u | qb <;>
      rcases ht : pyFloat d.temperature 25 with v | qt <;>
      rcases hl : pyFloat d.load 50 with w | ql <;>
      simp [hb, ht, hl, h, pyFloat, Bind.bind, Except.bind]
  · rcases hb : pyFloat d.batteryLevel 100 with u | qb <;>
      rcases ht : pyFloat d.temperature 25 with v | qt <;>
      rcases hl : pyFloat d.load 50 with w | ql <;>
      rcases he : pyFloat d.efficiency 95 with x | qe <;>
      simp [hb, ht, hl, he, h, pyFloat, Bind.bind, Except.bind]

/-- Witness for C10: a record whose battery field is non-numeric comes back
`"healthy"` even though every numeric metric present is catastrophic. -/
theorem determine_current_status_nonNumeric_healthy_witness :
    determine_current_status
      ⟨some .nonNumeric, some (.num 99), some (.num 99), some (.num 1), some (.num 1)⟩ =
      "healthy" :=
  determine_current_status_nonNumeric_healthy _ (Or.inl rfl)

/-- The refresh tick's status rule maps the four statuses into the four
statuses. -/
theorem monitorNewStatus_mem (s : String) (b t e : ℚ)
    (hs : s = "healthy" ∨ s = "risky" ∨ s = "warning" ∨ s = "failed") :
    monitorNewStatus s b t e = "healthy" ∨ monitorNewStatus s b t e = "risky" ∨
    monitorNewStatus s b t e = "warning" ∨ monitorNewStatus s b t e = "failed" := by
  unfold monitorNewStatus
  split_ifs <;> tauto

/-- C3 counterexample: a refresh tick on a healthy unit at battery 12.5%
(discharging by 0.5, all other drifts zero) persists battery 12 with status
kept at `"healthy"`, while the Status State Machine on the just-written
metrics says `"failed"` — so a persisted status is not always the state
machine of the persisted metrics. -/
theorem refresh_tick_status_diverges :
    (update_ups_data_step
        ⟨some "healthy", some 12.5, some 25, some 95, some 1000, some 800, none, none⟩
        ⟨false, 5, 0.5, 0, 0, 0, 0⟩).status = "healthy" ∧
    determine_current_status (writtenMetrics
        (update_ups_data_step
          ⟨some "healthy", some 12.5, some 25, some 95, some 1000, some 800, none, none⟩
          ⟨false, 5, 0.5, 0, 0, 0, 0⟩) none none) = "failed" ∧
    ("healthy" : String) ≠ "failed" := by
  have hstep : update_ups_data_step
      ⟨some "healthy", some 12.5, some 25, some 95, some 1000, some 800, none, none⟩
      ⟨false, 5, 0.5, 0, 0, 0, 0⟩ = ⟨12, 25, 95, 1000, 800, "healthy"⟩ := by
    norm_num [update_ups_data_step, newBattery, newTemperature, newEfficiency,
      newPowerInput, newPowerOutput, monitorNewStatus, round2, round_eq,
      max_def, min_def]
  refine ⟨by rw [hstep], ?_, by simp⟩
  rw [hstep]
  norm_num [writtenMetrics, determine_current_status, determineCurrentStatusTry,
    pyFloat, Bind.bind, Except.bind, Pure.pure, Except.pure, validateRange,
    statusFromValidated]

/-- C3 amended: the status a refresh tick persists is exactly the monitor's
own rule `monitorNewStatus` — keep the previous status unless the new
metrics are bad enough or allow a recovery reset — applied to the unrounded
new metric values, not `determine_current_status`; it stays within the four
statuses whenever the previous status was one of them. -/
theorem update_ups_data_step_status (ups : UnitDoc) (d : RefreshDraws)
    (hs : ups.status.getD "healthy" = "healthy" ∨ ups.status.getD "healthy" = "risky" ∨
      ups.status.getD "healthy" = "warning" ∨ ups.status.getD "healthy" = "failed") :
    (update_ups_data_step ups d).status =
      monitorNewStatus (ups.status.getD "healthy")
        (newBattery (ups.batteryLevel.getD 100) d)
        (newTemperature (ups.temperature.getD 25) d)
        (newEfficiency (ups.efficiency.getD 95) d) ∧
    ((update_ups_data_step ups d).status = "healthy" ∨
     (update_ups_data_step ups d).status = "risky" ∨
     (update_ups_data_step ups d).status = "warning" ∨
     (update_ups_data_step ups d).status = "failed") := by
  refine ⟨rfl, ?_⟩
  exact monitorNewStatus_mem _ _ _ _ hs

/-- Witness for the amended C3 at the counterexample's unit and draws. -/
theorem update_ups_data_step_status_witness :
    (update_ups_data_step
        ⟨some "healthy", some 12.5, some 25, some 95, some 1000, some 800, none, none⟩
        ⟨false, 5, 0.5, 0, 0, 0, 0⟩).status =
      monitorNewStatus "healthy" (newBattery 12.5 ⟨false, 5, 0.5, 0, 0, 0, 0⟩)
        (newTemperature 25 ⟨false, 5, 0.5, 0, 0, 0, 0⟩)
        (newEfficiency 95 ⟨false, 5, 0.5, 0, 0, 0, 0⟩) ∧
    ((update_ups_data_step
        ⟨some "healthy", some 12.5, some 25, some 95, some 1000, some 800, none, none⟩
        ⟨false, 5, 0.5, 0, 0, 0, 0⟩).status = "healthy" ∨
     (update_ups_data_step
        ⟨some "healthy", some 12.5, some 25, some 95, some 1000, some 800, none, none⟩
        ⟨false, 5, 0.5, 0, 0, 0, 0⟩).status = "risky" ∨
     (update_ups_data_step
        ⟨some "healthy", some 12.5, some 25, some 95, some 1000, some 800, none, none⟩
        ⟨false, 5, 0.5, 0, 0, 0, 0⟩).status = "warning" ∨
     (update_ups_data_step
        ⟨some "healthy", some 12.5, some 25, some 95, some 1000, some 800, none, none⟩
        ⟨false, 5, 0.5, 0, 0, 0, 0⟩).status = "failed") :=
  update_ups_data_step_status
    ⟨some "healthy", some 12.5, some 25, some 95, some 1000, some 800, none, none⟩
    ⟨false, 5, 0.5, 0, 0, 0, 0⟩ (Or.inl rfl)

/-- The clamp pattern stays in `[0, 1]`. -/
theorem pyClamp01_bounds (x : ℚ) : 0 ≤ pyClamp01 x ∧ pyClamp01 x ≤ 1 :=
  ⟨le_max_left 0 _, max_le (by norm_num) (min_le_left 1 x)⟩

/-- The temperature component of the history risk is in `[0, 1]`. -/
theorem temp_component_bounds (h : List HistoryRecord) :
    0 ≤ temp_component h ∧ temp_component h ≤ 1 := by
  unfold temp_component
  split_ifs
  · norm_num
  · exact pyClamp01_bounds _

/-- The battery component of the history risk is in `[0, 1]`. -/
theorem battery_component_bounds (h : List HistoryRecord) :
    0 ≤ battery_component h ∧ battery_component h ≤ 1 := by
  unfold battery_component
  split_ifs
  · norm_num
  · have h1 := pyClamp01_bounds ((historyBats h).headD 0 / 100)
    have h2 := pyClamp01_bounds
      (|if (historyBats h).length > 1 then
          (historyBats h).headD 0 - (historyBats h).getLast?.getD 0 else 0| / 20)
    constructor <;> [nlinarith [h1.1, h1.2, h2.1, h2.2]; nlinarith [h1.1, h1.2, h2.1, h2.2]]

/-- The efficiency component of the history risk is in `[0, 1]`. -/
theorem efficiency_component_bounds (h : List HistoryRecord) :
    0 ≤ efficiency_component h ∧ efficiency_component h ≤ 1 := by
  unfold efficiency_component
  split_ifs
  · norm_num
  · exact pyClamp01_bounds _

/-- The load component of the history risk is in `[0, 1]`. -/
theorem load_component_bounds (h : List HistoryRecord) :
    0 ≤ load_component h ∧ load_component h ≤ 1 := by
  unfold load_component
  split_ifs
  · norm_num
  · exact pyClamp01_bounds _

/-- C5: the history risk score is 0 on an empty window; on a nonempty window
it equals the weighted sum 0.3·temperature + 0.3·battery + 0.2·efficiency +
0.2·load of its four components; each component is clamped to `[0, 1]` before
weighting; and the score itself stays in `[0, 1]` for arbitrarily extreme
inputs. -/
theorem compute_history_risk_spec :
    compute_history_risk [] = 0 ∧
    (∀ h : List HistoryRecord,
      0 ≤ compute_history_risk h ∧ compute_history_risk h ≤ 1) ∧
    (∀ h : List HistoryRecord, h ≠ [] →
      compute_history_risk h =
        0.3 * temp_component h + 0.3 * battery_component h +
        0.2 * efficiency_component h + 0.2 * load_component h) ∧
    (∀ h : List HistoryRecord,
      (0 ≤ temp_component h ∧ temp_component h ≤ 1) ∧
      (0 ≤ battery_component h ∧ battery_component h ≤ 1) ∧
      (0 ≤ efficiency_component h ∧ efficiency_component h ≤ 1) ∧
      (0 ≤ load_component h ∧ load_component h ≤ 1)) := by
  refine ⟨by simp [compute_history_risk], ?_, ?_, ?_⟩
  · intro h
    unfold compute_history_risk
    split_ifs
    · norm_num
    · exact pyClamp01_bounds _
  · intro h hne
    have ht := temp_component_bounds h
    have hb := battery_component_bounds h
    have he := efficiency_component_bounds h
    have hl := load_component_bounds h
    unfold compute_history_risk
    rw [if_neg hne]
    unfold pyClamp01
    rw [min_eq_right (by nlinarith [ht.2, hb.2, he.2, hl.2, ht.1, hb.1, he.1, hl.1]),
      max_eq_right (by nlinarith [ht.1, hb.1, he.1, hl.1])]
  · intro h
    exact ⟨temp_component_bounds h, battery_component_bounds h,
      efficiency_component_bounds h, load_component_bounds h⟩

/-- Witness for C5 on a one-row window with an extreme 1000°C temperature:
the score is the weighted component sum, and is within `[0, 1]`. -/
theorem compute_history_risk_spec_witness :
    compute_history_risk [⟨some 1000, some 50, some 90, some 80⟩] =
      0.3 * temp_component [⟨some 1000, some 50, some 90, some 80⟩] +
      0.3 * battery_component [⟨some 1000, some 50, some 90, some 80⟩] +
      0.2 * efficiency_component [⟨some 1000, some 50, some 90, some 80⟩] +
      0.2 * load_component [⟨some 1000, some 50, some 90, some 80⟩] ∧
    0 ≤ compute_history_risk [⟨some 1000, some 50, some 90, some 80⟩] ∧
    compute_history_risk [⟨some 1000, some 50, some 90, some 80⟩] ≤ 1 :=
  ⟨compute_history_risk_spec.2.2.1 [⟨some 1000, some 50, some 90, some 80⟩] (by simp),
   compute_history_risk_spec.2.1 [⟨some 1000, some 50, some 90, some 80⟩]⟩

/-- C6 counterexample: for a unit record with no metric fields and a failure
probability of 0.2, explanation generation returns the empty list — both when
the remote client is not configured and when every retry fails — because the
generic probability-banded fallback only fires above 0.4. -/
theorem explanation_fallback_empty :
    generate_failure_reasons ⟨false, []⟩ blankUPSRecord ⟨some 0.2, none⟩ = [] ∧
    generate_failure_reasons ⟨true, [.failed, .failed, .failed]⟩ blankUPSRecord
      ⟨some 0.2, none⟩ = [] := by
  constructor <;>
    norm_num [generate_failure_reasons, generate_fallback_reasons, metric_reasons,
      battery_reasons, temperature_reasons, load_reasons, power_reasons,
      efficiency_reasons, general_reasons, blankUPSRecord, firstParsed, maxRetries]

/-- A run whose every attempt failed parses nothing. -/
theorem firstParsed_of_all_failed :
    ∀ l : List AttemptOutcome, (∀ a ∈ l, a = .failed) → firstParsed l = none := by
  intro l h
  induction l with
  | nil => rfl
  | cons a rest ih =>
    have ha := h a (List.mem_cons_self a rest)
    subst ha
    exact ih (fun b hb => h b (List.mem_cons_of_mem _ hb))

/-- C6 amended: when the remote service is unavailable or errors/returns
empty on every retry, explanation generation falls back locally, and the
fallback is non-empty whenever the failure probability exceeds 0.4 (or, a
fortiori, when some metric breaches a fallback band); at probability 0.4 or
below with no breached band the list is empty. -/
theorem generate_failure_reasons_nonempty_above_threshold :
    ∀ (env : RemoteEnv) (ups : UPSRecord) (pred : PredictionData),
      (env.modelConfigured = false ∨ ∀ a ∈ env.attempts, a = .failed) →
      pred.probability_failure.getD 0 > 0.4 →
      generate_failure_reasons env ups pred = generate_fallback_reasons ups pred ∧
      generate_fallback_reasons ups pred ≠ [] := by
  intro env ups pred hfail hp
  have hfb : generate_failure_reasons env ups pred = generate_fallback_reasons ups pred := by
    rcases hfail with hm | hall
    · simp [generate_failure_reasons, hm]
    · unfold generate_failure_reasons
      have hnone : firstParsed (env.attempts.take maxRetries) = none :=
        firstParsed_of_all_failed _ (fun a ha => hall a (List.mem_of_mem_take ha))
      split_ifs with h
      · rfl
      · simp [hnone]
  refine ⟨hfb, ?_⟩
  unfold generate_fallback_reasons
  by_cases hm : metric_reasons ups = []
  · simp only [hm, if_true]
    unfold general_reasons
    split_ifs with h1 h2 <;> simp_all
  · simp only [hm, if_false]
    cases hmr : metric_reasons ups with
    | nil => exact absurd hmr hm
    | cons a as => simp [hmr]

/-- Witness for the amended C6: with an unavailable remote service and
failure probability 0.5, generation falls back and the fallback is
non-empty. -/
theorem generate_failure_reasons_nonempty_witness :
    generate_failure_reasons ⟨false, []⟩ blankUPSRecord ⟨some 0.5, none⟩ =
      generate_fallback_reasons blankUPSRecord ⟨some 0.5, none⟩ ∧
    generate_fallback_reasons blankUPSRecord ⟨some 0.5, none⟩ ≠ [] :=
  generate_failure_reasons_nonempty_above_threshold ⟨false, []⟩ blankUPSRecord
    ⟨some 0.5, none⟩ (Or.inl rfl) (by norm_num)

/-- C4 counterexample: on `spreadRows` the builder splits the root on feature
index 0 although feature 1 has a strictly larger spread, so trees are not
built on the feature with the largest spread; and two identical non-pure
samples become a leaf through the one-sided-split guard, not through purity
or a minimum-samples rule. -/
theorem create_tree_not_largest_spread :
    create_tree spreadRows = .split 0 (1/2) (.leaf 0) (.leaf 1) ∧
    featureSpread spreadRows 0 < featureSpread spreadRows 1 ∧
    create_tree [([5], 0), ([5], 1)] = .leaf 0 := by
  refine ⟨?_, ?_, ?_⟩
  · norm_num [create_tree, createTreeFuel, npMedian, sortRat, insertLe,
      bincountArgmax, natMax, spreadRows, List.filter]
  · norm_num [featureSpread, spreadRows, pyMax, pyMin]
  · norm_num [create_tree, createTreeFuel, npMedian, sortRat, insertLe,
      bincountArgmax, natMax, List.filter, List.range_succ]

/-- Every split node the builder ever produces is on feature index 0. -/
theorem createTreeFuel_splits_feature_zero :
    ∀ (fuel : ℕ) (rows : List Row),
      allSplitsFeatureZero (createTreeFuel fuel rows) = true := by
  intro fuel
  induction fuel with
  | zero => intro rows; rfl
  | succ n ih =>
    intro rows
    simp only [createTreeFuel]
    split_ifs <;> simp [allSplitsFeatureZero, ih]

/-- C4 amended: every tree of the fitted ensemble is the same tree
`create_tree` built deterministically from the full training set, and every
split in it is on feature index 0 (the first feature) — at the median of that
feature's values at the node, stopping on purity, on an absent feature
column, or on a one-sided split (see `createTreeFuel`); the largest-spread
rule is not implemented. -/
theorem fit_trees_identical_feature_zero :
    ∀ (rows : List Row) (n : ℕ),
      (∀ t ∈ (RandomForest.fit rows n).trees, t = create_tree rows) ∧
      allSplitsFeatureZero (create_tree rows) = true := by
  intro rows n
  constructor
  · intro t ht
    simp only [RandomForest.fit, List.mem_map] at ht
    rcases ht with ⟨i, _, h⟩
    exact h.symm
  · exact createTreeFuel_splits_feature_zero _ _

/-- Witness for the amended C4: the head of the two-tree ensemble fitted on
`spreadRows` is the deterministic tree, and all its splits are on feature
0. -/
theorem fit_trees_identical_feature_zero_witness :
    (RandomForest.fit spreadRows 2).trees.headD (.leaf 99) = create_tree spreadRows ∧
    allSplitsFeatureZero (create_tree spreadRows) = true :=
  ⟨(fit_trees_identical_feature_zero spreadRows 2).1 _
      (by simp [RandomForest.fit, List.range_succ]),
   (fit_trees_identical_feature_zero spreadRows 2).2⟩

/-- All ensemble members fitted by this code are the same deterministic tree,
so the vote list is that tree's prediction replicated. -/
theorem treeVotes_fit (rows : List Row) (n : ℕ) (sample : List ℚ) :
    treeVotes (RandomForest.fit rows n) sample =
      List.replicate n (predict_sample sample (create_tree rows)) := by
  simp [treeVotes, RandomForest.fit, List.map_map, Function.comp]

/-- The tree fitted on `threeClassRows` in explicit form. -/
theorem create_tree_threeClassRows :
    create_tree threeClassRows =
      .split 0 1 (.split 0 (1/2) (.leaf 0) (.leaf 1)) (.leaf 2) := by
  norm_num [create_tree, createTreeFuel, npMedian, sortRat, insertLe,
    bincountArgmax, natMax, threeClassRows, List.filter]
  simp

/-- Class list of the three-class model. -/
theorem threeClassModel_classes : threeClassModel.classes = [0, 1, 2] := by
  show npUnique (threeClassRows.map Prod.snd) = [0, 1, 2]
  decide

/-- Every tree of the three-class model votes class 2 on the failed-class
unit. -/
theorem threeClassModel_votes :
    treeVotes threeClassModel (extractFeatures failedClassUnit) =
      List.replicate 100 2 := by
  unfold threeClassModel
  rw [treeVotes_fit, create_tree_threeClassRows]
  norm_num [predict_sample, extractFeatures, failedClassUnit]

/-- Probability vector of the three-class model on the failed-class unit:
all the mass sits on the failed class. -/
theorem threeClassModel_proba :
    predict_proba threeClassModel (extractFeatures failedClassUnit) = [0, 0, 1] := by
  unfold predict_proba
  rw [threeClassModel_votes, threeClassModel_classes]
  norm_num [List.count_replicate]

set_option maxRecDepth 4000 in
/-- Full scoring result of the three-class model on the failed-class unit. -/
theorem threeClassModel_scored :
    predict_with_detailed_reasons (some threeClassModel) ⟨false, []⟩ failedClassUnit =
      some ⟨2, 0, 0, 1, []⟩ := by
  have hpredict : threeClassModel.predict (extractFeatures failedClassUnit) = 2 := by
    unfold RandomForest.predict
    rw [threeClassModel_votes]
    decide
  have hreasons : generate_failure_reasons ⟨false, []⟩ failedClassUnit
      ⟨some 0, some 1⟩ = [] := by
    norm_num [generate_failure_reasons, generate_fallback_reasons, metric_reasons,
      battery_reasons, temperature_reasons, load_reasons, power_reasons,
      efficiency_reasons, general_reasons, failedClassUnit]
  simp [predict_with_detailed_reasons, threeClassModel_proba, hpredict, hreasons,
    pyMax, max_def]

/-- C7 counterexample: on the failed-class unit the returned healthy and
failure probabilities are both 0, so their sum is 0, not 1 — they are not
complementary when a third (failed) class absorbs the votes.  The returned
confidence (1) does equal the maximum class probability. -/
theorem predict_probabilities_not_complementary :
    (predict_with_detailed_reasons (some threeClassModel) ⟨false, []⟩
        failedClassUnit).map (fun r => r.probability_healthy + r.probability_failure) =
      some 0 ∧
    (predict_with_detailed_reasons (some threeClassModel) ⟨false, []⟩
        failedClassUnit).map (fun r => r.confidence) = some 1 ∧
    (0 : ℚ) ≠ 1 := by
  refine ⟨?_, ?_, by norm_num⟩ <;> rw [threeClassModel_scored] <;> norm_num

/-- A vote list over classes 0, 1, 2 is partitioned by its three counts. -/
theorem count012_of_votes (l : List ℕ) (h : ∀ v ∈ l, v = 0 ∨ v = 1 ∨ v = 2) :
    l.count 0 + l.count 1 + l.count 2 = l.length := by
  induction l with
  | nil => simp
  | cons a rest ih =>
    have ha := h a (List.mem_cons_self a rest)
    have hrest := ih (fun v hv => h v (List.mem_cons_of_mem _ hv))
    rcases ha with rfl | rfl | rfl <;> simp [List.count_cons] <;> omega

/-- C7 amended: for a loaded model whose class set is `[0, 1, 2]` and whose
votes on the unit all land in that set, `probability_healthy` and
`probability_failure` are the vote fractions of classes 0 and 1, their sum is
`1` minus the fraction voting the failed class 2 — so they are complementary
exactly when no tree votes "failed" — and the returned confidence is the
maximum class probability. -/
theorem predict_with_detailed_reasons_proba (m : RandomForest) (env : RemoteEnv)
    (u : UPSRecord) (r : DetailedPrediction)
    (hc : m.classes = [0, 1, 2])
    (hne : m.trees ≠ [])
    (hv : ∀ v ∈ treeVotes m (extractFeatures u), v = 0 ∨ v = 1 ∨ v = 2)
    (hr : predict_with_detailed_reasons (some m) env u = some r) :
    r.probability_healthy =
      ((treeVotes m (extractFeatures u)).count 0 : ℚ) /
        (treeVotes m (extractFeatures u)).length ∧
    r.probability_failure =
      ((treeVotes m (extractFeatures u)).count 1 : ℚ) /
        (treeVotes m (extractFeatures u)).length ∧
    r.probability_healthy + r.probability_failure =
      1 - ((treeVotes m (extractFeatures u)).count 2 : ℚ) /
        (treeVotes m (extractFeatures u)).length ∧
    r.confidence = pyMax (predict_proba m (extractFeatures u)) ∧
    ((treeVotes m (extractFeatures u)).count 2 = 0 →
      r.probability_healthy + r.probability_failure = 1) := by
  have hlen : (treeVotes m (extractFeatures u)).length ≠ 0 := by
    simp only [treeVotes, List.length_map, ne_eq, List.length_eq_zero]
    exact hne
  have hproba : predict_proba m (extractFeatures u) =
      [((treeVotes m (extractFeatures u)).count 0 : ℚ) /
        (treeVotes m (extractFeatures u)).length,
       ((treeVotes m (extractFeatures u)).count 1 : ℚ) /
        (treeVotes m (extractFeatures u)).length,
       ((treeVotes m (extractFeatures u)).count 2 : ℚ) /
        (treeVotes m (extractFeatures u)).length] := by
    simp [predict_proba, hc]
  simp only [predict_with_detailed_reasons] at hr
  rw [hproba] at hr
  norm_num at hr
  subst hr
  have hcount := count012_of_votes (treeVotes m (extractFeatures u)) hv
  have hlenQ : ((treeVotes m (extractFeatures u)).length : ℚ) ≠ 0 := by
    exact_mod_cast hlen
  have hq : ((treeVotes m (extractFeatures u)).count 0 : ℚ) +
      ((treeVotes m (extractFeatures u)).count 1 : ℚ) +
      ((treeVotes m (extractFeatures u)).count 2 : ℚ) =
      ((treeVotes m (extractFeatures u)).length : ℚ) := by
    exact_mod_cast hcount
  have hsum : ((treeVotes m (extractFeatures u)).count 0 : ℚ) /
        (treeVotes m (extractFeatures u)).length +
      ((treeVotes m (extractFeatures u)).count 1 : ℚ) /
        (treeVotes m (extractFeatures u)).length =
      1 - ((treeVotes m (extractFeatures u)).count 2 : ℚ) /
        (treeVotes m (extractFeatures u)).length := by
    field_simp
    linarith
  refine ⟨rfl, rfl, hsum, by rw [hproba], ?_⟩
  intro h2
  rw [show ((treeVotes m (extractFeatures u)).count 2 : ℚ) = 0 by exact_mod_cast h2] at hsum
  rw [hsum]
  norm_num

/-- Witness for the amended C7 at the three-class model and failed-class
unit: healthy and failure fractions are 0, their sum is 1 minus the full
failed-class fraction, and confidence is the maximal class probability. -/
theorem predict_with_detailed_reasons_proba_witness :
    ((⟨2, 0, 0, 1, []⟩ : DetailedPrediction).probability_healthy =
      ((treeVotes threeClassModel (extractFeatures failedClassUnit)).count 0 : ℚ) /
        (treeVotes threeClassModel (extractFeatures failedClassUnit)).length ∧
    (⟨2, 0, 0, 1, []⟩ : DetailedPrediction).probability_failure =
      ((treeVotes threeClassModel (extractFeatures failedClassUnit)).count 1 : ℚ) /
        (treeVotes threeClassModel (extractFeatures failedClassUnit)).length ∧
    (⟨2, 0, 0, 1, []⟩ : DetailedPrediction).probability_healthy +
        (⟨2, 0, 0, 1, []⟩ : DetailedPrediction).probability_failure =
      1 - ((treeVotes threeClassModel (extractFeatures failedClassUnit)).count 2 : ℚ) /
        (treeVotes threeClassModel (extractFeatures failedClassUnit)).length ∧
    (⟨2, 0, 0, 1, []⟩ : DetailedPrediction).confidence =
      pyMax (predict_proba threeClassModel (extractFeatures failedClassUnit)) ∧
    ((treeVotes threeClassModel (extractFeatures failedClassUnit)).count 2 = 0 →
      (⟨2, 0, 0, 1, []⟩ : DetailedPrediction).probability_healthy +
        (⟨2, 0, 0, 1, []⟩ : DetailedPrediction).probability_failure = 1)) :=
  predict_with_detailed_reasons_proba threeClassModel ⟨false, []⟩ failedClassUnit
    ⟨2, 0, 0, 1, []⟩ threeClassModel_classes
    (by rw [threeClassModel, RandomForest.fit]; simp)
    (by rw [threeClassModel_votes]; intro v hv; simp at hv; omega)
    threeClassModel_scored

/-- C8: a prediction cycle that cannot load the model, cannot read unit data,
reads an empty unit list, or produces zero predictions returns with the
persisted prediction set unchanged; the stored set changes only when at least
one new prediction was produced, and then it becomes exactly the new set. -/
theorem generate_predictions_preserves_on_failure :
    ∀ (loadedModel : Option RandomForest) (udr : Option (List UPSRecord))
      (env : RemoteEnv) (stored : List EnhancedPrediction),
      (loadedModel = none → generate_predictions loadedModel udr env stored = stored) ∧
      (udr = none → generate_predictions loadedModel udr env stored = stored) ∧
      (∀ m ups, loadedModel = some m → udr = some ups →
        build_enhanced_predictions m env ups = [] →
        generate_predictions loadedModel udr env stored = stored) ∧
      (generate_predictions loadedModel udr env stored ≠ stored →
        ∃ m ups, loadedModel = some m ∧ udr = some ups ∧
          build_enhanced_predictions m env ups ≠ [] ∧
          generate_predictions loadedModel udr env stored =
            build_enhanced_predictions m env ups) := by
  intro lm udr env stored
  refine ⟨?_, ?_, ?_, ?_⟩
  · intro h; subst h; rfl
  · intro h; subst h; cases lm <;> rfl
  · intro m ups hm hu hb
    subst hm; subst hu
    simp only [generate_predictions, hb]
    split_ifs <;> rfl
  · intro hne
    cases lm with
    | none => simp [generate_predictions] at hne
    | some m =>
      cases udr with
      | none => simp [generate_predictions] at hne
      | some ups =>
        by_cases hups : ups = []
        · simp [generate_predictions, hups] at hne
        · by_cases hb : build_enhanced_predictions m env ups = []
          · simp [generate_predictions, hups, hb] at hne
          · exact ⟨m, ups, rfl, rfl, hb, by simp [generate_predictions, hups, hb]⟩

/-- Witness for C8: a cycle with no model, and a cycle with a model but an
empty unit list, both leave a nonempty stored set untouched. -/
theorem generate_predictions_preserves_witness :
    generate_predictions none none ⟨false, []⟩ storedSample = storedSample ∧
    generate_predictions (some twoClassModel) (some []) ⟨false, []⟩ storedSample =
      storedSample :=
  ⟨(generate_predictions_preserves_on_failure none none ⟨false, []⟩ storedSample).1 rfl,
   (generate_predictions_preserves_on_failure (some twoClassModel) (some [])
      ⟨false, []⟩ storedSample).2.2.1 twoClassModel [] rfl rfl rfl⟩

/-- Every document the continuous cycle builds carries a failure probability
of at least 0.4. -/
theorem mem_build_enhanced_ge (m : RandomForest) (env : RemoteEnv)
    (ups_data : List UPSRecord) :
    ∀ p ∈ build_enhanced_predictions m env ups_data, p.probability_failure ≥ 0.4 := by
  intro p hp
  simp only [build_enhanced_predictions, List.mem_filterMap] at hp
  obtain ⟨ups, _, hmatch⟩ := hp
  cases hpr : predict_with_detailed_reasons (some m) env ups with
  | none => rw [hpr] at hmatch; simp at hmatch
  | some r =>
    rw [hpr] at hmatch
    simp only at hmatch
    split_ifs at hmatch with hth
    obtain rfl := Option.some.inj hmatch
    exact hth

/-- C9 amended: in the continuous prediction cycle
(`ContinuousPredictionService.generate_predictions`) a scored unit's document
enters the built (and hence persisted) set exactly when its failure
probability is at least 0.4; every built document satisfies the threshold.
The predictive-monitor cycle, by contrast, applies no threshold (see the
counterexample). -/
theorem build_enhanced_predictions_threshold :
    ∀ (m : RandomForest) (env : RemoteEnv) (ups_data : List UPSRecord),
      (∀ p ∈ build_enhanced_predictions m env ups_data,
        p.probability_failure ≥ 0.4) ∧
      (∀ ups ∈ ups_data, ∀ r,
        predict_with_detailed_reasons (some m) env ups = some r →
        (r.probability_failure ≥ 0.4 →
          mkEnhancedPrediction ups r ∈ build_enhanced_predictions m env ups_data) ∧
        (¬(r.probability_failure ≥ 0.4) →
          mkEnhancedPrediction ups r ∉ build_enhanced_predictions m env ups_data)) := by
  intro m env ups_data
  refine ⟨mem_build_enhanced_ge m env ups_data, ?_⟩
  intro ups hups r hr
  constructor
  · intro hth
    simp only [build_enhanced_predictions, List.mem_filterMap]
    refine ⟨ups, hups, ?_⟩
    rw [hr]
    simp [hth]
  · intro hth hmem
    have hge := mem_build_enhanced_ge m env ups_data _ hmem
    exact hth (by simpa [mkEnhancedPrediction] using hge)

/-- The tree fitted on `twoClassRows` in explicit form. -/
theorem create_tree_twoClassRows :
    create_tree twoClassRows = .split 0 (1/2) (.leaf 0) (.leaf 1) := by
  norm_num [create_tree, createTreeFuel, npMedian, sortRat, insertLe,
    bincountArgmax, natMax, twoClassRows, List.filter]

/-- Class list of the two-class model. -/
theorem twoClassModel_classes : twoClassModel.classes = [0, 1] := by
  show npUnique (twoClassRows.map Prod.snd) = [0, 1]
  decide

/-- Every tree of the two-class model votes class 0 on the healthy unit with
history risk 0 injected. -/
theorem twoClass_votes_healthy :
    treeVotes twoClassModel (extractFeatures
      ⟨none, none, "u-healthy", none, some 0, none, none, none, none, none, none,
       none, none, none, none, none, some 0, none, none⟩) = List.replicate 100 0 := by
  unfold twoClassModel
  rw [treeVotes_fit, create_tree_twoClassRows]
  norm_num [predict_sample, extractFeatures]

/-- Probability vector of the two-class model on the risk-0 healthy unit. -/
theorem twoClass_proba_healthy :
    predict_proba twoClassModel (extractFeatures
      ⟨none, none, "u-healthy", none, some 0, none, none, none, none, none, none,
       none, none, none, none, none, some 0, none, none⟩) = [1, 0] := by
  unfold predict_proba
  rw [twoClass_votes_healthy, twoClassModel_classes]
  norm_num [List.count_replicate]

set_option maxRecDepth 4000 in
/-- Full scoring result of the two-class model on the risk-0 healthy unit:
failure probability 0, healthy probability 1. -/
theorem twoClass_scored_healthy :
    predict_with_detailed_reasons (some twoClassModel) ⟨false, []⟩
      ⟨none, none, "u-healthy", none, some 0, none, none, none, none, none, none,
       none, none, none, none, none, some 0, none, none⟩ = some ⟨0, 0, 1, 1, []⟩ := by
  have hpredict : twoClassModel.predict (extractFeatures
      ⟨none, none, "u-healthy", none, some 0, none, none, none, none, none, none,
       none, none, none, none, none, some 0, none, none⟩) = 0 := by
    unfold RandomForest.predict
    rw [twoClass_votes_healthy]
    decide
  have hreasons : generate_failure_reasons ⟨false, []⟩
      ⟨none, none, "u-healthy", none, some 0, none, none, none, none, none, none,
       none, none, none, none, none, some 0, none, none⟩ ⟨some 0, some 1⟩ = [] := by
    norm_num [generate_failure_reasons, generate_fallback_reasons, metric_reasons,
      battery_reasons, temperature_reasons, load_reasons, power_reasons,
      efficiency_reasons, general_reasons]
  simp [predict_with_detailed_reasons, twoClass_proba_healthy, hpredict, hreasons,
    pyMax, max_def]

/-- Every tree of the two-class model votes class 1 on the degraded unit. -/
theorem twoClass_votes_degraded :
    treeVotes twoClassModel (extractFeatures degradedUnit) = List.replicate 100 1 := by
  unfold twoClassModel
  rw [treeVotes_fit, create_tree_twoClassRows]
  norm_num [predict_sample, extractFeatures, degradedUnit]

/-- Probability vector of the two-class model on the degraded unit. -/
theorem twoClass_proba_degraded :
    predict_proba twoClassModel (extractFeatures degradedUnit) = [0, 1] := by
  unfold predict_proba
  rw [twoClass_votes_degraded, twoClassModel_classes]
  norm_num [List.count_replicate]

set_option maxRecDepth 4000 in
/-- Full scoring result of the two-class model on the degraded unit: failure
probability 1. -/
theorem twoClass_scored_degraded :
    predict_with_detailed_reasons (some twoClassModel) ⟨false, []⟩ degradedUnit =
      some ⟨1, 1, 0, 1, [.generalCritical 1]⟩ := by
  have hpredict : twoClassModel.predict (extractFeatures degradedUnit) = 1 := by
    unfold RandomForest.predict
    rw [twoClass_votes_degraded]
    decide
  have hreasons : generate_failure_reasons ⟨false, []⟩ degradedUnit
      ⟨some 1, some 1⟩ = [.generalCritical 1] := by
    norm_num [generate_failure_reasons, generate_fallback_reasons, metric_reasons,
      battery_reasons, temperature_reasons, load_reasons, power_reasons,
      efficiency_reasons, general_reasons, degradedUnit]
  simp [predict_with_detailed_reasons, twoClass_proba_degraded, hpredict, hreasons,
    pyMax, max_def]

/-- C9 counterexample: the predictive-monitor cycle (`make_predictions`
followed by `save_predictions`) persists a prediction document for a unit
whose failure probability is 0 — far below the 0.4 alert threshold — so
"persisted iff probability at least 0.4" fails on that cycle. -/
theorem monitor_cycle_persists_below_threshold :
    (save_predictions []
        (make_predictions (some twoClassModel) ⟨false, []⟩ (fun _ => [])
          [healthyUnit])).map (fun p => p.probability_failure) = [0] ∧
    ¬((0 : ℚ) ≥ 0.4) := by
  refine ⟨?_, by norm_num⟩
  simp [save_predictions, make_predictions, historyKey, compute_history_risk,
    smoothWithHistory, healthyUnit, twoClass_scored_healthy]

/-- Witness for the amended C9: the degraded unit's document (failure
probability 1) is in the set the continuous cycle builds. -/
theorem build_enhanced_predictions_threshold_witness :
    mkEnhancedPrediction degradedUnit ⟨1, 1, 0, 1, [.generalCritical 1]⟩ ∈
      build_enhanced_predictions twoClassModel ⟨false, []⟩ [degradedUnit] :=
  ((build_enhanced_predictions_threshold twoClassModel ⟨false, []⟩ [degradedUnit]).2
    degradedUnit (by simp) ⟨1, 1, 0, 1, [.generalCritical 1]⟩
    twoClass_scored_degraded).1 (by norm_num)

end UPSBackend
